import Mathlib

/-!
Verification of the k8socks repository against its specification.

The Rust sources are shallowly embedded: pure functions become Lean
functions, fallible code (including panics from `unwrap`) returns
`Option` / `Except`, asynchronous orchestration becomes explicit state
passing driven by a schedule of events, and external collaborators
(filesystem, cluster API, OS random source, process spawning) are passed
in as explicit parameters recording their outcomes.
-/

namespace K8socks

/-! ## Configuration model

Embeds `crates/k8socks-traits/src/config/mod.rs` (the identical duplicate
lives in `k8socks/crates/k8socks-config/src/lib.rs`).  Rust `u16`/`u64`
fields are modelled as `Nat` (all uses stay far below the wrap point, and
no arithmetic is performed on them), `HashMap<String,String>` as an
association list `List (String × String)` (the merge logic never looks
inside the map, it only replaces the whole `Option`).
-/

/-- Embeds `PodResources` from the config crate: both request fields are
optional. -/
structure PodResources where
  cpu : Option String
  memory : Option String
  deriving DecidableEq, Repr

/-- Embeds `Config` from the config crate: every field is optional, so a
layer can leave any field unset. -/
structure Config where
  kubeconfig : Option String
  context : Option String
  «namespace» : Option String
  ssh_public_key_path : Option String
  ssh_username : Option String
  local_socks_port : Option Nat
  pod_ttl_seconds : Option Nat
  pod_image : Option String
  pod_resources : Option PodResources
  pod_labels : Option (List (String × String))
  pod_annotations : Option (List (String × String))
  log_level : Option String
  deriving DecidableEq, Repr

/-- Embeds `overwrite_if_some` (config/mod.rs:9-13): the destination is
overwritten by the source only when the source is `Some`.  The Rust
function mutates `left`; here the updated value is returned. -/
def overwrite_if_some {α : Type} (left right : Option α) : Option α :=
  if right.isSome then right else left

/-- Embeds the `#[derive(Merge)]` on `Config`: every field is merged with
the `overwrite_if_some` strategy (config/mod.rs:36-75). -/
def Config.merge (left right : Config) : Config where
  kubeconfig := overwrite_if_some left.kubeconfig right.kubeconfig
  context := overwrite_if_some left.context right.context
  «namespace» := overwrite_if_some left.«namespace» right.«namespace»
  ssh_public_key_path := overwrite_if_some left.ssh_public_key_path right.ssh_public_key_path
  ssh_username := overwrite_if_some left.ssh_username right.ssh_username
  local_socks_port := overwrite_if_some left.local_socks_port right.local_socks_port
  pod_ttl_seconds := overwrite_if_some left.pod_ttl_seconds right.pod_ttl_seconds
  pod_image := overwrite_if_some left.pod_image right.pod_image
  pod_resources := overwrite_if_some left.pod_resources right.pod_resources
  pod_labels := overwrite_if_some left.pod_labels right.pod_labels
  pod_annotations := overwrite_if_some left.pod_annotations right.pod_annotations
  log_level := overwrite_if_some left.log_level right.log_level

/-- The all-absent configuration layer (every field `None`); this is the
value serde produces for an empty configuration file, since every field
carries `#[serde(default)]`. -/
def Config.allAbsent : Config where
  kubeconfig := none
  context := none
  «namespace» := none
  ssh_public_key_path := none
  ssh_username := none
  local_socks_port := none
  pod_ttl_seconds := none
  pod_image := none
  pod_resources := none
  pod_labels := none
  pod_annotations := none
  log_level := none

/-- A configuration layer is fully populated when every field is `Some`. -/
def Config.fullyPopulated (c : Config) : Prop :=
  c.kubeconfig.isSome ∧ c.context.isSome ∧ c.«namespace».isSome ∧
  c.ssh_public_key_path.isSome ∧ c.ssh_username.isSome ∧
  c.local_socks_port.isSome ∧ c.pod_ttl_seconds.isSome ∧
  c.pod_image.isSome ∧ c.pod_resources.isSome ∧ c.pod_labels.isSome ∧
  c.pod_annotations.isSome ∧ c.log_level.isSome

/-- Embeds `impl Default for Config` (config/mod.rs:77-97). -/
def Config.default : Config where
  kubeconfig := some "~/.kube/config"
  context := none
  «namespace» := some "default"
  ssh_public_key_path := some "~/.ssh/id_rsa.pub"
  ssh_username := some "k8socks"
  local_socks_port := some 1080
  pod_ttl_seconds := some 900
  pod_image := some "linuxserver/openssh-server:latest"
  pod_resources := some { cpu := some "50m", memory := some "64Mi" }
  pod_labels := some [("app", "k8socks")]
  pod_annotations := some []
  log_level := some "info"

/-! ## Pod manifest model

Embeds the manifest-building part of `k8socks/crates/k8socks-k8s/src/lib.rs`.
The `k8s_openapi` types are embedded with just the fields the source
populates or the claims inspect; `Quantity` is the newtype over a string
that the source wraps resource request values in, and the two
`BTreeMap<String,String>` metadata maps are modelled as association lists
(`BTreeMap::from_iter` preserves the key-value mapping, which is all the
claims speak about).
-/

/-- Embeds `k8s_openapi ... Quantity`: a newtype over a string. -/
structure Quantity where
  value : String
  deriving DecidableEq, Repr

/-- Embeds `k8s_openapi ... EnvVar` (only the fields the source sets). -/
structure EnvVar where
  name : String
  value : Option String
  deriving DecidableEq, Repr

/-- Embeds `k8s_openapi ... ResourceRequirements` (only `requests` is set
by the source; the remaining fields stay at their defaults). -/
structure ResourceRequirements where
  requests : Option (List (String × Quantity))
  deriving DecidableEq, Repr

/-- Embeds `k8s_openapi ... Container` (only the fields the source sets). -/
structure Container where
  name : String
  image : Option String
  image_pull_policy : Option String
  command : Option (List String)
  env : Option (List EnvVar)
  resources : Option ResourceRequirements
  deriving DecidableEq, Repr

/-- Embeds `k8s_openapi ... PodSpec` (only `containers` is set). -/
structure PodSpec where
  containers : List Container
  deriving DecidableEq, Repr

/-- Embeds `k8s_openapi ... ObjectMeta` (only the fields the source sets). -/
structure ObjectMeta where
  name : Option String
  «namespace» : Option String
  labels : Option (List (String × String))
  annotations : Option (List (String × String))
  deriving DecidableEq, Repr

/-- Embeds `k8s_openapi ... Pod`. -/
structure Pod where
  metadata : ObjectMeta
  spec : Option PodSpec
  deriving DecidableEq, Repr

/-- Embeds the `format!` producing the container startup command in
`build_pod_manifest` (k8s/lib.rs:88-93).  The Rust string-literal line
continuations (`\` + newline) splice the lines together with no
intervening whitespace; `\x27` is the single-quote character around the
sshd option argument. -/
def startup_command (ttl : Nat) : String :=
  "echo \"$SSH_PUBLIC_KEY\" | base64 -d > /tmp/authorized_keys && /usr/sbin/sshd -D -o \x27AuthorizedKeysFile /tmp/authorized_keys\x27 & PID=$! && sleep " ++
    toString ttl ++ " && kill $PID"

/-- Embeds `build_pod_manifest` (k8s/lib.rs:70-117).  The result is
`none` exactly when the Rust function panics: the `resources` closure
calls `.unwrap()` on `r.cpu` and `r.memory` (k8s/lib.rs:103-104), which
panics when `pod_resources` is present but one of the two request fields
is absent.  Otherwise the produced `Pod` mirrors the source manifest
field for field. -/
def build_pod_manifest (config : Config) (name : String)
    (ssh_key_base64 : String) : Option Pod :=
  let cfg := config
  let resourcesOf : PodResources → Option ResourceRequirements := fun r =>
    match r.cpu, r.memory with
    | some c, some m =>
        some { requests := some [("cpu", ⟨c⟩), ("memory", ⟨m⟩)] }
    | _, _ => none
  let resourcesField : Option (Option ResourceRequirements) :=
    match cfg.pod_resources with
    | none => some none
    | some r => (resourcesOf r).map some
  match resourcesField with
  | none => none
  | some rescs =>
      some
        { metadata :=
            { name := some name
              «namespace» := cfg.«namespace»
              labels := cfg.pod_labels
              annotations := cfg.pod_annotations }
          spec :=
            some
              { containers :=
                  [{ name := "sshd"
                     image := cfg.pod_image
                     image_pull_policy := some "IfNotPresent"
                     command :=
                       some ["/bin/sh", "-c",
                         startup_command (cfg.pod_ttl_seconds.getD 900)]
                     env :=
                       some [{ name := "SSH_PUBLIC_KEY"
                               value := some ssh_key_base64 }]
                     resources := rescs }] } }

/-- Embeds the `{:x}` formatting of one random draw in `generate_pod_name`
(k8s/lib.rs:66): `rng.gen_range(0..16)` always yields a value below 16,
so the formatted output is a single lowercase hex character. -/
def lowerHexChar (n : Fin 16) : Char :=
  if n.val < 10 then Char.ofNat (48 + n.val) else Char.ofNat (87 + n.val)

/-- Embeds `generate_pod_name` (k8s/lib.rs:64-68).  The thread-local RNG is
the one external input; it is passed in as the stream of six draws from
`gen_range(0..16)`, making the function pure (it performs no I/O). -/
def generate_pod_name (rng : Fin 6 → Fin 16) : String :=
  let random_hex : String := String.mk ((List.finRange 6).map fun i => lowerHexChar (rng i))
  "k8socks-" ++ random_hex

/-- Decides whether a character is a lowercase hex digit, i.e. matches the
character class `[0-9a-f]`. -/
def isLowerHexDigit (c : Char) : Bool :=
  (48 ≤ c.toNat && c.toNat ≤ 57) || (97 ≤ c.toNat && c.toNat ≤ 102)

/-- Decides whether a string matches the anchored pattern
`k8socks-[0-9a-f]{6}`: the fixed prefix followed by exactly six lowercase
hex digits. -/
def matchesNamePattern (s : String) : Bool :=
  match s.data with
  | 'k' :: '8' :: 's' :: 'o' :: 'c' :: 'k' :: 's' :: '-' :: rest =>
      rest.length == 6 && rest.all isLowerHexDigit
  | _ => false

/-! ## Kubernetes service model

Embeds the `K8sService` implementation of
`k8socks/crates/k8socks-k8s/src/lib.rs`.  External effects (cluster API
calls, the filesystem read of the credential file, the base64 engine,
tilde expansion) enter as explicit parameters carrying their outcomes;
the operations each function submits to the cluster are recorded in a
trace of `K8sOp` values.  Opaque library errors (`kube::Error`,
`std::io::Error`) are modelled by their message strings.
-/

/-- Models an opaque `kube::Error` by its message. -/
abbrev KubeErr := String

/-- Models an opaque `std::io::Error` by its message. -/
abbrev IoErr := String

/-- Embeds the `K8sError` enum (k8s/lib.rs:22-36). -/
inductive K8sError
  | Kube (e : KubeErr)
  | KubeConfig (e : String)
  | InferConfig (e : String)
  | PodNotReady
  | SshKeyError (path : String) (e : IoErr)
  | PodNotFound (name : String)
  deriving DecidableEq, Repr

/-- Embeds `PodRef` (k8s/lib.rs:38-42). -/
structure PodRef where
  name : String
  «namespace» : String
  deriving DecidableEq, Repr

/-- Embeds `PortForwardHandle` (k8s/lib.rs:44-47); the opaque join handle
of the background relay task is dropped from the model, the relay task's
observable contribution (the port its listener is actually bound on) is
returned separately by `port_forward`. -/
structure PortForwardHandle where
  local_port : Nat
  deriving DecidableEq, Repr

/-- A cluster-mutating request submitted by the k8s service. -/
inductive K8sOp
  | createPod (manifest : Pod)
  | deletePod (ref : PodRef)
  deriving DecidableEq, Repr

/-- The fixed readiness timeout of `wait_for_pod_ready`:
`Duration::from_secs(60)` (k8s/lib.rs:153). -/
def readiness_timeout_secs : Nat := 60

/-- Embeds `wait_for_pod_ready` (k8s/lib.rs:150-157).

`establish_outcome` is the result of
`tokio::time::timeout(60s, await_condition(api, name, is_pod_running()))`:
`none` means the timeout elapsed first, `some inner` means the
`await_condition` future finished within the timeout with result `inner`
(`Except.ok (some p)` when the running condition was observed on pod `p`,
`Except.error e` when the readiness watch itself failed).  `get_result`
is the outcome of the follow-up `api.get(name)`.

The source binds the timeout result as `let _ = ...?`, so only the
timeout error propagates — the inner `await_condition` result is
discarded. -/
def wait_for_pod_ready (establish_outcome : Option (Except KubeErr (Option Pod)))
    (get_result : Except KubeErr Pod) : Except K8sError Pod :=
  match establish_outcome with
  | none => .error .PodNotReady
  | some _ =>
      match get_result with
      | .ok p => .ok p
      | .error e => .error (.Kube e)

/-- Formalizes the claim phrase "the workload's running condition was
confirmed": the awaited `await_condition` future finished within the
timeout having observed the running condition on some pod. -/
def readinessConfirmed
    (establish_outcome : Option (Except KubeErr (Option Pod))) : Bool :=
  match establish_outcome with
  | some (.ok (some _)) => true
  | _ => false

/-- Embeds `port_forward` (k8s/lib.rs:159-178).  The returned pair is the
`PortForwardHandle` the function constructs (k8s/lib.rs:174-177) together
with the port the background task's `TcpListener::bind(("127.0.0.1",
local_port))` actually binds (k8s/lib.rs:165): when `local_port` is 0 the
operating system assigns the ephemeral port `os_assigned`, otherwise the
listener is bound on the requested port itself. -/
def port_forward (local_port : Nat) (os_assigned : Nat) :
    PortForwardHandle × Nat :=
  ({ local_port := local_port },
   if local_port = 0 then os_assigned else local_port)

/-- Embeds `deploy_pod` (k8s/lib.rs:130-148).  `pod_name` is the value of
`generate_pod_name()`; `expand_tilde` and `base64_encode` stand for the
external tilde-expansion and base64-engine collaborators; `read_key` is
the outcome of `fs::read_to_string` on the expanded key path;
`create_result` is the outcome the cluster would give a create request.
The overall `none` models a panic (`.unwrap()` on a missing namespace or
key path, or the panic inside `build_pod_manifest`).  The trace lists the
cluster-mutating requests actually submitted. -/
def deploy_pod (cfg : Config) (pod_name : String)
    (expand_tilde : String → String) (read_key : Except IoErr String)
    (base64_encode : String → String) (create_result : Except KubeErr Unit) :
    Option (List K8sOp × Except K8sError PodRef) :=
  match cfg.«namespace» with
  | none => none
  | some ns =>
      match cfg.ssh_public_key_path with
      | none => none
      | some key_path_str =>
          let ssh_key_path := expand_tilde key_path_str
          match read_key with
          | .error e => some ([], .error (.SshKeyError ssh_key_path e))
          | .ok content =>
              let ssh_key_base64 := base64_encode content.trim
              match build_pod_manifest cfg pod_name ssh_key_base64 with
              | none => none
              | some manifest =>
                  match create_result with
                  | .error e => some ([.createPod manifest], .error (.Kube e))
                  | .ok _ => some ([.createPod manifest], .ok ⟨pod_name, ns⟩)

/-! ## SSH proxy supervisor model

Embeds `watch` of the `SshService` implementation.  The two source trees
(`k8socks/crates/k8socks-ssh/src/lib.rs:85-128` and
`crates/k8socks-ssh/src/lib.rs:51-96`) contain the same draining / join /
status logic and are embedded once.  The subprocess enters the model as
the line sequences it writes to its two output pipes before exiting and
as the outcome of `child.wait()`.
-/

/-- Embeds `std::process::ExitStatus`: `code` is the exit code, `none`
when the process was terminated by a signal. -/
structure ExitStatus where
  code : Option Int
  deriving DecidableEq, Repr

/-- Embeds `ExitStatus::success()`: true exactly when the exit code is 0. -/
def ExitStatus.success (st : ExitStatus) : Bool := st.code == some 0

/-- Embeds the `SshError` enum (ssh/lib.rs:10-16). -/
inductive SshError
  | ProcessError (e : IoErr)
  | UnexpectedExit
  deriving DecidableEq, Repr

deriving instance DecidableEq for Except

/-- A leveled line delivered to the logging sink by the draining tasks:
stdout lines are logged at info level, stderr lines at warn level
(ssh/lib.rs:103-113). -/
inductive LogLine
  | info (s : String)
  | warn (s : String)
  deriving DecidableEq, Repr

/-- What a call to `watch` observably did by the time it returned. -/
structure WatchReturn where
  /-- Lines whose delivery to the logging sink `watch` guaranteed before
  returning (the output of the drain tasks it awaited). -/
  flushed : List LogLine
  /-- Whether both spawned drain tasks were awaited before returning. -/
  drains_joined : Bool
  result : Except SshError Unit
  deriving DecidableEq, Repr

/-- Embeds `watch` (ssh/lib.rs:85-128 and the duplicate at 51-96).
`stdout_pipe` / `stderr_pipe` are the captured pipes (`none` when
`.take()` found them already consumed), carrying every line the
subprocess writes before exiting; `wait_result` is the outcome of
`child.wait()`.

The source awaits `child.wait()` with `?` *before* awaiting the two
drain tasks, so a wait error returns early without joining them; on the
normal path both tasks are awaited (each drains its pipe to EOF, which
the closed pipes of the exited process guarantee), and only then is the
exit status inspected: success exactly for exit code 0, otherwise
`UnexpectedExit`. -/
def watch (stdout_pipe stderr_pipe : Option (List String))
    (wait_result : Except IoErr ExitStatus) : WatchReturn :=
  match stdout_pipe with
  | none =>
      { flushed := [], drains_joined := false
        result := .error (.ProcessError "Failed to capture stdout") }
  | some out_lines =>
      match stderr_pipe with
      | none =>
          { flushed := [], drains_joined := false
            result := .error (.ProcessError "Failed to capture stderr") }
      | some err_lines =>
          match wait_result with
          | .error e =>
              { flushed := [], drains_joined := false
                result := .error (.ProcessError e) }
          | .ok status =>
              { flushed := out_lines.map .info ++ err_lines.map .warn
                drains_joined := true
                result :=
                  if status.success then .ok () else .error .UnexpectedExit }

/-! ## Main orchestration, sequential paths

Embeds the orchestration of `crates/k8socks-cli/src/main.rs:111-170` for
executions in which the interrupt never fires (the spawned ctrl-c task
stays parked in `signal::ctrl_c().await`).  On these executions the code
is a straight line: each fallible step's outcome enters as a parameter,
and the trace records the service calls the orchestration issues, in
order. -/

/-- An error propagated out of `main` through `anyhow` (`?`). -/
inductive AppErr
  | k8s (e : K8sError)
  | ssh (e : SshError)
  deriving DecidableEq, Repr

/-- A service call issued by the main orchestration. -/
inductive MainOp
  | opDeployPod
  | opWaitReady
  | opPortForward
  | opSshSpawn
  | opSshWatch
  | opDeletePod
  deriving DecidableEq, Repr

/-- Embeds `deploy_and_wait` (main.rs:163-170): `deploy_pod()?` followed
by `wait_for_pod_ready(&pod_ref)?`; each error propagates immediately
with `?`, and no other call is issued. -/
def deploy_and_wait (deploy_result : Except K8sError PodRef)
    (wait_result : Except K8sError Unit) :
    List MainOp × Except AppErr PodRef :=
  match deploy_result with
  | .error e => ([.opDeployPod], .error (.k8s e))
  | .ok pod_ref =>
      match wait_result with
      | .error e => ([.opDeployPod, .opWaitReady], .error (.k8s e))
      | .ok _ => ([.opDeployPod, .opWaitReady], .ok pod_ref)

/-- Embeds `main` (main.rs:111-159) on executions where no interrupt
fires: `deploy_and_wait(...)?`, then `port_forward(&pod_ref, 0)?`, then
`start_socks_proxy(port)?`, then the `select!` resolves through the
`watch` branch (the channel never receives), a `watch` error is only
logged (main.rs:142-144), and since `rx.try_recv()` is an error the
final cleanup deletes the pod (main.rs:152-157); `main` then returns
`Ok(())`. -/
def main_no_interrupt (deploy_result : Except K8sError PodRef)
    (wait_result : Except K8sError Unit)
    (pf_result : Except K8sError Unit)
    (spawn_result : Except SshError Unit)
    (watch_result : Except SshError Unit) :
    List MainOp × Except AppErr Unit :=
  match deploy_and_wait deploy_result wait_result with
  | (trace, .error e) => (trace, .error e)
  | (trace, .ok _) =>
      match pf_result with
      | .error e => (trace ++ [.opPortForward], .error (.k8s e))
      | .ok _ =>
          match spawn_result with
          | .error e =>
              (trace ++ [.opPortForward, .opSshSpawn], .error (.ssh e))
          | .ok _ =>
              let _ := watch_result
              (trace ++ [.opPortForward, .opSshSpawn, .opSshWatch,
                         .opDeletePod],
               .ok ())

/-! ## Main orchestration, shutdown race

Embeds the shutdown coordination of `crates/k8socks-cli/src/main.rs:117-157`
for the session in which the pod was deployed and both exit triggers
fire: the interrupt has been received (so the spawned ctrl-c task is
runnable) and the ssh `watch` future completes.  The two tasks and the
capacity-1 mpsc channel between them are run as a small-step machine
driven by an explicit schedule; each schedule is one interleaving the
tokio runtime could produce. -/

/-- Program counter of the spawned ctrl-c task (main.rs:121-128), after
`signal::ctrl_c()` has returned: it first calls `delete_pod`, then sends
`()` on the channel, then finishes. -/
inductive SigPC
  | sigDelete
  | sigSend
  | sigDone
  deriving DecidableEq, Repr

/-- Program counter of the main task: parked in `tokio::select!`
(main.rs:140-149), then at the final-cleanup block (main.rs:152-157),
then done. -/
inductive MainPC
  | mSelect
  | mCleanup
  | mDone
  deriving DecidableEq, Repr

/-- Joint state of the shutdown race. -/
structure ShutdownState where
  sig : SigPC
  mn : MainPC
  /-- The capacity-1 mpsc channel holds the `()` message. -/
  chan_buf : Bool
  /-- The `ssh_service.watch(...)` future has completed. -/
  watch_done : Bool
  /-- Number of `delete_pod` calls issued so far, by either task. -/
  deletes : Nat
  deriving DecidableEq, Repr

/-- One scheduling event: which runnable step the runtime lets proceed
next.  Steps whose guard does not hold leave the state unchanged. -/
inductive SchedEv
  /-- The ctrl-c task runs its next step (a `delete_pod` call, or the
  `tx.send(())`). -/
  | sigStep
  /-- The ssh `watch` future completes. -/
  | watchCompletes
  /-- The `select!` resolves through the `rx.recv()` branch, which
  requires a buffered message and consumes it (main.rs:146-148). -/
  | mainRecvBranch
  /-- The `select!` resolves through the `watch` branch, which requires
  the watch future to have completed (main.rs:141-145). -/
  | mainWatchBranch
  /-- The main task runs the final-cleanup block: `rx.try_recv()`
  consumes a buffered message if there is one and skips the delete,
  otherwise it is an `Err` and `delete_pod` is called (main.rs:152-157). -/
  | mainCleanup
  deriving DecidableEq, Repr

/-- Embeds one scheduling step of the shutdown race. -/
def shutdownStep (s : ShutdownState) : SchedEv → ShutdownState
  | .sigStep =>
      match s.sig with
      | .sigDelete => { s with deletes := s.deletes + 1, sig := .sigSend }
      | .sigSend => { s with chan_buf := true, sig := .sigDone }
      | .sigDone => s
  | .watchCompletes => { s with watch_done := true }
  | .mainRecvBranch =>
      if s.mn = .mSelect ∧ s.chan_buf then
        { s with chan_buf := false, mn := .mCleanup }
      else s
  | .mainWatchBranch =>
      if s.mn = .mSelect ∧ s.watch_done then { s with mn := .mCleanup }
      else s
  | .mainCleanup =>
      if s.mn = .mCleanup then
        if s.chan_buf then { s with chan_buf := false, mn := .mDone }
        else { s with deletes := s.deletes + 1, mn := .mDone }
      else s

/-- Runs the shutdown race under a schedule. -/
def shutdownRun (s : ShutdownState) (evs : List SchedEv) : ShutdownState :=
  evs.foldl shutdownStep s

/-- Initial state of the race once both triggers have fired: the
interrupt was received (the ctrl-c task is about to call `delete_pod`),
the main task is parked in the `select!`, the channel is empty, and no
delete has been issued yet. -/
def shutdownInit : ShutdownState where
  sig := .sigDelete
  mn := .mSelect
  chan_buf := false
  watch_done := false
  deletes := 0

/-! ## Claim theorems -/

/-- C1: the delete-once property fails in the code.  Both schedules below
are complete runs of the shutdown race with both triggers fired (the
interrupt was received and the watch future completes).  In the first
schedule the ctrl-c task deletes the pod and sends on the channel, the
`select!` resolves through the `rx.recv()` branch and thereby consumes
the message, so the final cleanup's `rx.try_recv()` errs and main issues
a second `delete_pod` — two deletes.  Only in the second schedule, where
the `select!` resolves through the watch branch while the message is
still buffered, does `try_recv` observe the prior cleanup and skip the
duplicate, giving exactly one delete. -/
theorem C1_shutdown_race_double_delete :
    shutdownRun shutdownInit
        [.sigStep, .sigStep, .mainRecvBranch, .watchCompletes, .mainCleanup] =
      { sig := .sigDone, mn := .mDone, chan_buf := false,
        watch_done := true, deletes := 2 } ∧
    shutdownRun shutdownInit
        [.sigStep, .sigStep, .watchCompletes, .mainWatchBranch, .mainCleanup] =
      { sig := .sigDone, mn := .mDone, chan_buf := false,
        watch_done := true, deletes := 1 } := by
  decide

/-- C2: cleanup-on-error is not unconditional in the code.  After the pod
is created, a readiness timeout, a port-forward error and an ssh spawn
error each propagate out of `main` with `?` and the run ends with no
`delete_pod` call at all; only the `UnexpectedExit` path reaches the
final cleanup and deletes the pod — and there the error is merely logged,
so `main` returns success instead of the propagated error. -/
theorem C2_fatal_errors_skip_cleanup :
    main_no_interrupt (.ok ⟨"k8socks-abc123", "default"⟩)
        (.error .PodNotReady) (.ok ()) (.ok ()) (.ok ()) =
      ([.opDeployPod, .opWaitReady], .error (.k8s .PodNotReady)) ∧
    main_no_interrupt (.ok ⟨"k8socks-abc123", "default"⟩) (.ok ())
        (.error (.Kube "port-forward failed")) (.ok ()) (.ok ()) =
      ([.opDeployPod, .opWaitReady, .opPortForward],
       .error (.k8s (.Kube "port-forward failed"))) ∧
    main_no_interrupt (.ok ⟨"k8socks-abc123", "default"⟩) (.ok ()) (.ok ())
        (.error (.ProcessError "spawn failed")) (.ok ()) =
      ([.opDeployPod, .opWaitReady, .opPortForward, .opSshSpawn],
       .error (.ssh (.ProcessError "spawn failed"))) ∧
    MainOp.opDeletePod ∉
      ([.opDeployPod, .opWaitReady, .opPortForward, .opSshSpawn] : List MainOp) ∧
    main_no_interrupt (.ok ⟨"k8socks-abc123", "default"⟩) (.ok ()) (.ok ())
        (.ok ()) (.error .UnexpectedExit) =
      ([.opDeployPod, .opWaitReady, .opPortForward, .opSshSpawn, .opSshWatch,
        .opDeletePod], .ok ()) := by
  decide

/-- C3: assigned-port reporting fails in the code.  For
`port_forward(ref, 0)` the handle's `local_port` field is the requested
value 0, while the background task's listener is bound on the
OS-assigned ephemeral port (here 49152): the reported port is zero and
differs from the port actually bound, so the ssh client spawned with it
connects to port 0. -/
theorem C3_port_forward_reports_requested_zero :
    (port_forward 0 49152).1.local_port = 0 ∧
    (port_forward 0 49152).2 = 49152 ∧
    (port_forward 0 49152).1.local_port ≠ (port_forward 0 49152).2 := by
  decide

/-- C7: the startup command embedded in the manifest sleeps exactly
`ttl` seconds, and its steps are, in order: decode and install the
credential as an authorized key, start the sshd daemon in the
background, sleep for `ttl`, kill the daemon.  The command string also
literally contains `sleep <ttl>`. -/
theorem C7_ttl_self_destruct (cfg : Config) (name key : String) (ttl : Nat)
    (httl : cfg.pod_ttl_seconds = some ttl) :
    (∀ p, build_pod_manifest cfg name key = some p →
        ∃ c, p.spec = some { containers := [c] } ∧
          c.command = some ["/bin/sh", "-c", startup_command ttl]) ∧
    startup_command ttl =
      ("echo \"$SSH_PUBLIC_KEY\" | base64 -d > /tmp/authorized_keys" ++
        " && " ++
        "/usr/sbin/sshd -D -o \x27AuthorizedKeysFile /tmp/authorized_keys\x27" ++
        " & " ++ "PID=$!" ++ " && " ++ "sleep ") ++
        toString ttl ++ (" && " ++ "kill $PID") ∧
    ∃ pre post, startup_command ttl = pre ++ "sleep " ++ toString ttl ++ post := by
  refine ⟨?_, rfl,
    ⟨"echo \"$SSH_PUBLIC_KEY\" | base64 -d > /tmp/authorized_keys && /usr/sbin/sshd -D -o \x27AuthorizedKeysFile /tmp/authorized_keys\x27 & PID=$! && ",
     " && kill $PID", rfl⟩⟩
  intro p hp
  unfold build_pod_manifest at hp
  cases hres : cfg.pod_resources with
  | none =>
      simp only [hres] at hp
      cases hp
      exact ⟨_, rfl, by simp [httl]⟩
  | some r =>
      simp only [hres] at hp
      cases hcpu : r.cpu with
      | none => simp [hcpu] at hp
      | some c =>
          cases hmem : r.memory with
          | none => simp [hcpu, hmem] at hp
          | some m =>
              simp only [hcpu, hmem, Option.map_some] at hp
              cases hp
              exact ⟨_, rfl, by simp [httl]⟩

theorem C7_ttl_self_destruct_witness :
    startup_command 3600 =
      ("echo \"$SSH_PUBLIC_KEY\" | base64 -d > /tmp/authorized_keys" ++
        " && " ++
        "/usr/sbin/sshd -D -o \x27AuthorizedKeysFile /tmp/authorized_keys\x27" ++
        " & " ++ "PID=$!" ++ " && " ++ "sleep ") ++
        toString 3600 ++ (" && " ++ "kill $PID") :=
  (C7_ttl_self_destruct { Config.default with pod_ttl_seconds := some 3600 }
    "k8socks-abc123" "BASE64KEY" 3600 rfl).2.1

/-- C8: every generated workload name matches `k8socks-[0-9a-f]{6}`; the
generator is a pure function of the six random draws, so it performs no
I/O. -/
theorem C8_generated_name_matches_pattern (rng : Fin 6 → Fin 16) :
    matchesNamePattern (generate_pod_name rng) = true := by
  have h : ∀ n : Fin 16, isLowerHexDigit (lowerHexChar n) = true := by decide
  show matchesNamePattern
    ("k8socks-" ++ String.mk ((List.finRange 6).map fun i => lowerHexChar (rng i))) = true
  have hdata :
      ("k8socks-" ++
        String.mk ((List.finRange 6).map fun i => lowerHexChar (rng i))).data =
      'k' :: '8' :: 's' :: 'o' :: 'c' :: 'k' :: 's' :: '-' ::
        ((List.finRange 6).map fun i => lowerHexChar (rng i)) := by
    simp [String.data_append]
  simp [matchesNamePattern, hdata, List.all_eq_true, h]

/-- C4 counterexample: the claim's unconditional "watch returns only
after both output-draining tasks have completed" fails in the code.
When `child.wait()` itself fails with an I/O error, the `?` operator
returns it before the two drain tasks are awaited: at this concrete
input `watch` returns without joining the drains, and the line the
subprocess wrote to stdout is not guaranteed to have reached the
logging sink. -/
theorem C4_counterexample_wait_error_skips_join :
    (watch (some ["debug1: Connecting"]) (some [])
        (.error "waitpid failed")).drains_joined = false ∧
    LogLine.info "debug1: Connecting" ∉
      (watch (some ["debug1: Connecting"]) (some [])
        (.error "waitpid failed")).flushed ∧
    (watch (some ["debug1: Connecting"]) (some [])
        (.error "waitpid failed")).result =
      .error (.ProcessError "waitpid failed") := by
  decide

/-- C4 amended: for every watch call on a handle whose two output pipes
were captured and whose `child.wait()` succeeds with an exit status,
`watch` awaits both drain tasks before returning, every line the
subprocess wrote to stdout (resp. stderr) is flushed to the logging
sink at info (resp. warn) level before the return, and the result is
success exactly when the exit code is 0, `UnexpectedExit` for every
other observed exit condition.  (If the wait itself fails with an I/O
error, that error is returned without the drain-join guarantee.) -/
theorem C4_watch_drains_then_reports (out_lines err_lines : List String)
    (wait_result : Except IoErr ExitStatus) (st : ExitStatus)
    (h : wait_result = .ok st) :
    (watch (some out_lines) (some err_lines) wait_result).drains_joined = true ∧
    (∀ l ∈ out_lines,
      LogLine.info l ∈
        (watch (some out_lines) (some err_lines) wait_result).flushed) ∧
    (∀ l ∈ err_lines,
      LogLine.warn l ∈
        (watch (some out_lines) (some err_lines) wait_result).flushed) ∧
    ((watch (some out_lines) (some err_lines) wait_result).result = .ok ()
      ↔ st.code = some 0) ∧
    (st.code ≠ some 0 →
      (watch (some out_lines) (some err_lines) wait_result).result =
        .error .UnexpectedExit) := by
  subst h
  refine ⟨rfl, ?_, ?_, ?_, ?_⟩
  · intro l hl
    exact List.mem_append_left _ (List.mem_map_of_mem _ hl)
  · intro l hl
    exact List.mem_append_right _ (List.mem_map_of_mem _ hl)
  · by_cases hc : st.code = some 0 <;> simp [watch, ExitStatus.success, hc]
  · intro hc
    simp [watch, ExitStatus.success, hc]

theorem C4_watch_drains_then_reports_witness :
    (watch (some ["line a"]) (some ["line b"])
        (.ok ⟨some 0⟩)).drains_joined = true :=
  (C4_watch_drains_then_reports ["line a"] ["line b"] (.ok ⟨some 0⟩)
    ⟨some 0⟩ rfl).1

/-- C5 counterexample: "returns successfully only if the running
condition was confirmed" fails in the code.  The source discards the
`await_condition` result with `let _ = ...`, so when the readiness watch
itself fails within the timeout and the follow-up `api.get` succeeds,
the call returns success although the running condition was never
confirmed. -/
theorem C5_counterexample_success_without_confirmation :
    wait_for_pod_ready (some (.error "watch stream failed"))
        (.ok ⟨⟨some "k8socks-abc123", some "default", none, none⟩, none⟩) =
      .ok ⟨⟨some "k8socks-abc123", some "default", none, none⟩, none⟩ ∧
    readinessConfirmed (some (.error "watch stream failed")) = false := by
  decide

/-- C5 amended: if the running condition is not reached within the fixed
60-second timeout, the call fails with `Timeout` (`PodNotReady`) without
retrying; otherwise the outcome is that of the single follow-up get —
success exactly when the get succeeds (an error from the readiness watch
is discarded, so success does not require the running condition to have
been confirmed), and `ApiError` when the get fails. -/
theorem C5_wait_ready_behavior
    (eo : Option (Except KubeErr (Option Pod))) (g : Except KubeErr Pod) :
    wait_for_pod_ready none g = .error .PodNotReady ∧
    (∀ p, wait_for_pod_ready eo g = .ok p → g = .ok p ∧ eo ≠ none) ∧
    (∀ r e, eo = some r → g = .error e →
      wait_for_pod_ready eo g = .error (.Kube e)) ∧
    readiness_timeout_secs = 60 := by
  refine ⟨rfl, ?_, ?_, rfl⟩
  · intro p hp
    cases eo with
    | none => simp [wait_for_pod_ready] at hp
    | some r =>
        cases g with
        | ok q =>
            refine ⟨?_, by simp⟩
            simpa [wait_for_pod_ready] using hp
        | error e => simp [wait_for_pod_ready] at hp
  · intro r e her hg
    subst her
    subst hg
    rfl

theorem C5_wait_ready_behavior_witness :
    wait_for_pod_ready
        (some (.ok (some ⟨⟨some "k8socks-abc123", some "default", none, none⟩, none⟩)))
        (.error "forbidden") = .error (.Kube "forbidden") :=
  (C5_wait_ready_behavior
      (some (.ok (some ⟨⟨some "k8socks-abc123", some "default", none, none⟩, none⟩)))
      (.error "forbidden")).2.2.1
    (.ok (some ⟨⟨some "k8socks-abc123", some "default", none, none⟩, none⟩))
    "forbidden" rfl rfl

/-- C6 counterexample: "the function returns a manifest for every such
configuration" fails in the code.  With resource requests present but
`memory` absent, `build_pod_manifest` hits `.unwrap()` on `None`
(k8s/lib.rs:104) and panics instead of returning a manifest. -/
theorem C6_counterexample_partial_resources_panics :
    build_pod_manifest
        { Config.default with
            pod_resources := some { cpu := some "50m", memory := none } }
        "k8socks-abc123" "BASE64KEY" = none := by
  rfl

/-- C6 amended: whenever `build_pod_manifest` returns a manifest, the
configured labels and annotations appear in its metadata verbatim; a
manifest is returned whenever resource requests are absent, and whenever
they are present with both `cpu` and `memory` set, in which case the two
values appear verbatim in the container's resource requests.  If
resource requests are present with `cpu` or `memory` unset, the function
panics (`unwrap` on `None`) instead of returning a manifest. -/
theorem C6_verbatim_passthrough (cfg : Config) (name key : String) :
    (∀ p, build_pod_manifest cfg name key = some p →
        p.metadata.labels = cfg.pod_labels ∧
        p.metadata.annotations = cfg.pod_annotations) ∧
    (cfg.pod_resources = none → build_pod_manifest cfg name key ≠ none) ∧
    (∀ r cpu mem, cfg.pod_resources = some r → r.cpu = some cpu →
        r.memory = some mem →
        ∃ p, build_pod_manifest cfg name key = some p ∧
          ∃ c, p.spec = some { containers := [c] } ∧
            c.resources =
              some { requests := some [("cpu", ⟨cpu⟩), ("memory", ⟨mem⟩)] }) := by
  refine ⟨?_, ?_, ?_⟩
  · intro p hp
    unfold build_pod_manifest at hp
    cases hres : cfg.pod_resources with
    | none =>
        simp only [hres] at hp
        cases hp
        exact ⟨rfl, rfl⟩
    | some r =>
        simp only [hres] at hp
        cases hcpu : r.cpu with
        | none => simp [hcpu] at hp
        | some c =>
            cases hmem : r.memory with
            | none => simp [hcpu, hmem] at hp
            | some m =>
                simp only [hcpu, hmem, Option.map_some] at hp
                cases hp
                exact ⟨rfl, rfl⟩
  · intro h
    simp [build_pod_manifest, h]
  · intro r cpu mem hr hc hm
    unfold build_pod_manifest
    simp only [hr, hc, hm, Option.map_some]
    exact ⟨_, rfl, _, rfl, rfl⟩

theorem C6_verbatim_passthrough_witness :
    (⟨⟨some "k8socks-abc123", none, none, none⟩,
      some ⟨[⟨"sshd", none, some "IfNotPresent",
        some ["/bin/sh", "-c", startup_command 900],
        some [⟨"SSH_PUBLIC_KEY", some "BASE64KEY"⟩], none⟩]⟩⟩ : Pod).metadata.labels
        = Config.allAbsent.pod_labels ∧
    (⟨⟨some "k8socks-abc123", none, none, none⟩,
      some ⟨[⟨"sshd", none, some "IfNotPresent",
        some ["/bin/sh", "-c", startup_command 900],
        some [⟨"SSH_PUBLIC_KEY", some "BASE64KEY"⟩], none⟩]⟩⟩ : Pod).metadata.annotations
        = Config.allAbsent.pod_annotations :=
  (C6_verbatim_passthrough Config.allAbsent "k8socks-abc123" "BASE64KEY").1 _ rfl

/-- C9: config layering — merging the all-absent layer onto any base is
the identity; merging a fully-populated layer onto any base yields
exactly the layer; and per field the overlay's value wins exactly when
it is `Some`. -/
theorem C9_merge_identity_and_right_bias (base layer : Config) :
    Config.merge base Config.allAbsent = base ∧
    (layer.fullyPopulated → Config.merge base layer = layer) ∧
    (Config.merge base layer).kubeconfig =
      (if layer.kubeconfig.isSome then layer.kubeconfig else base.kubeconfig) ∧
    (Config.merge base layer).context =
      (if layer.context.isSome then layer.context else base.context) ∧
    (Config.merge base layer).«namespace» =
      (if layer.«namespace».isSome then layer.«namespace» else base.«namespace») ∧
    (Config.merge base layer).ssh_public_key_path =
      (if layer.ssh_public_key_path.isSome then layer.ssh_public_key_path
       else base.ssh_public_key_path) ∧
    (Config.merge base layer).ssh_username =
      (if layer.ssh_username.isSome then layer.ssh_username else base.ssh_username) ∧
    (Config.merge base layer).local_socks_port =
      (if layer.local_socks_port.isSome then layer.local_socks_port
       else base.local_socks_port) ∧
    (Config.merge base layer).pod_ttl_seconds =
      (if layer.pod_ttl_seconds.isSome then layer.pod_ttl_seconds
       else base.pod_ttl_seconds) ∧
    (Config.merge base layer).pod_image =
      (if layer.pod_image.isSome then layer.pod_image else base.pod_image) ∧
    (Config.merge base layer).pod_resources =
      (if layer.pod_resources.isSome then layer.pod_resources
       else base.pod_resources) ∧
    (Config.merge base layer).pod_labels =
      (if layer.pod_labels.isSome then layer.pod_labels else base.pod_labels) ∧
    (Config.merge base layer).pod_annotations =
      (if layer.pod_annotations.isSome then layer.pod_annotations
       else base.pod_annotations) ∧
    (Config.merge base layer).log_level =
      (if layer.log_level.isSome then layer.log_level else base.log_level) := by
  refine ⟨?_, ?_, rfl, rfl, rfl, rfl, rfl, rfl, rfl, rfl, rfl, rfl, rfl, rfl⟩
  · cases base
    rfl
  · intro h
    obtain ⟨h1, h2, h3, h4, h5, h6, h7, h8, h9, h10, h11, h12⟩ := h
    cases layer
    simp_all [Config.merge, overwrite_if_some]

theorem C9_merge_identity_and_right_bias_witness :
    Config.merge Config.allAbsent
        { Config.default with context := some "prod" } =
      { Config.default with context := some "prod" } :=
  (C9_merge_identity_and_right_bias Config.allAbsent
      { Config.default with context := some "prod" }).2.1
    ⟨rfl, rfl, rfl, rfl, rfl, rfl, rfl, rfl, rfl, rfl, rfl, rfl⟩

/-- C10: credential failure is pre-creation atomic.  Whenever the read
of the SSH public key file fails, `deploy_pod` fails with
`SshKeyError` naming the expanded path, and its trace of submitted
cluster requests is empty — in particular no create request was
submitted, so no remote workload results from the failed call. -/
theorem C10_key_error_submits_no_create (cfg : Config) (pod_name : String)
    (expand_tilde base64_encode : String → String) (e : IoErr)
    (create_result : Except KubeErr Unit) (ns key_path : String)
    (hns : cfg.«namespace» = some ns)
    (hkp : cfg.ssh_public_key_path = some key_path) :
    deploy_pod cfg pod_name expand_tilde (.error e) base64_encode
        create_result =
      some ([], .error (.SshKeyError (expand_tilde key_path) e)) := by
  simp [deploy_pod, hns, hkp]

theorem C10_key_error_submits_no_create_witness :
    deploy_pod Config.default "k8socks-abc123" id (.error "permission denied")
        id (.ok ()) =
      some ([], .error (.SshKeyError "~/.ssh/id_rsa.pub" "permission denied")) :=
  C10_key_error_submits_no_create Config.default "k8socks-abc123" id id
    "permission denied" (.ok ()) "default" "~/.ssh/id_rsa.pub" rfl rfl

end K8socks
